import Mathlib

/-!
# db_compress: attribute values, creators, type registry and decode engine

A shallow embedding of `src/attribute.h` and `src/decompression.h`.

* C++ `int` and `size_t` are mathematical integers reduced modulo `2 ^ w`
  at every conversion into the type.
* A `double` is carried as its IEEE-754 binary64 bit pattern; the code only
  stores and returns doubles, it never computes with them.
* A C++ function that can leave by an exception returns `Except Failure _`;
  a nullable pointer result is an `Option`.
* A virtual class is the record of its virtual methods; a derived class is the
  base record with the overridden fields replaced.
-/

set_option autoImplicit false

namespace db_compress

/-! ## Definitions -/

/-! ### Machine types -/

/-- Width of the C++ type `int` (ILP32, LP64 and LLP64 data models). -/
def INT_BITS : Nat := 32

/-- Width of the C++ type `size_t` (LP64 and LLP64 data models). -/
def SIZE_T_BITS : Nat := 64

/-- Conversion of an integer value to `int`: reduction modulo `2 ^ INT_BITS`
into the signed range. -/
def to_int (v : Int) : Int :=
  (v + 2 ^ (INT_BITS - 1)) % 2 ^ INT_BITS - 2 ^ (INT_BITS - 1)

/-- Conversion of an unsigned value to `size_t`: reduction modulo
`2 ^ SIZE_T_BITS`. -/
def to_size_t (v : Nat) : Nat := v % 2 ^ SIZE_T_BITS

/-- The values of type `int`. -/
def is_int (v : Int) : Prop := -(2 ^ (INT_BITS - 1)) ≤ v ∧ v < 2 ^ (INT_BITS - 1)

/-- The values of type `size_t`. -/
def is_size_t (v : Nat) : Prop := v < 2 ^ SIZE_T_BITS

instance (v : Int) : Decidable (is_int v) := by
  unfold is_int
  infer_instance

instance (v : Nat) : Decidable (is_size_t v) := by
  unfold is_size_t
  infer_instance

/-- A `double`, as its binary64 bit pattern. -/
structure CppDouble where
  bits : Nat
  deriving DecidableEq, Repr

/-! ### Base types (attribute.h, lines 10-13) -/

def BASE_TYPE_INTEGER : Int := 0
def BASE_TYPE_DOUBLE : Int := 1
def BASE_TYPE_STRING : Int := 2
def BASE_TYPE_ENUM : Int := 3

/-! ### The four AttrValue classes (attribute.h, lines 17-47)

Each class has one private field `value_`, a constructor that initialises it
from the argument, and the const accessor `Value()`. -/

structure IntegerAttrValue where
  value_ : Int
  deriving DecidableEq, Repr

structure DoubleAttrValue where
  value_ : CppDouble
  deriving DecidableEq, Repr

structure StringAttrValue where
  value_ : String
  deriving DecidableEq, Repr

structure EnumAttrValue where
  value_ : Nat
  deriving DecidableEq, Repr

/-- The constructor `IntegerAttrValue(int val) : value_(val)`. The argument is
converted to the parameter type `int` at the call. -/
def IntegerAttrValue.new (val : Int) : IntegerAttrValue := ⟨to_int val⟩

/-- The accessor `int Value() const`. -/
def IntegerAttrValue.Value (a : IntegerAttrValue) : Int := a.value_

/-- The constructor `DoubleAttrValue(double val) : value_(val)`. -/
def DoubleAttrValue.new (val : CppDouble) : DoubleAttrValue := ⟨val⟩

/-- The accessor `double Value() const`. -/
def DoubleAttrValue.Value (a : DoubleAttrValue) : CppDouble := a.value_

/-- The constructor `StringAttrValue(const std::string& val) : value_(val)`. -/
def StringAttrValue.new (val : String) : StringAttrValue := ⟨val⟩

/-- The accessor `const std::string& Value() const`. -/
def StringAttrValue.Value (a : StringAttrValue) : String := a.value_

/-- The constructor `EnumAttrValue(size_t val) : value_(val)`. The argument is
converted to the parameter type `size_t` at the call. -/
def EnumAttrValue.new (val : Nat) : EnumAttrValue := ⟨to_size_t val⟩

/-- The accessor `size_t Value() const`. -/
def EnumAttrValue.Value (a : EnumAttrValue) : Nat := a.value_

/-- An object of the abstract class `AttrValue`: one of the four classes that
attribute.h derives from it. -/
inductive AttrValue where
  | Integer (a : IntegerAttrValue)
  | Double (a : DoubleAttrValue)
  | String (a : StringAttrValue)
  | Enum (a : EnumAttrValue)
  deriving DecidableEq, Repr

/-- A const member function seen as an operation on the object: it returns
the object it was called on together with its result. -/
def const_call {σ ρ : Type} (m : σ → ρ) (obj : σ) : σ × ρ := (obj, m obj)

/-- Runs `n` successive calls of an operation on an object; returns the
final object and the results in call order. -/
def call_repeatedly {σ ρ : Type} (op : σ → σ × ρ) : Nat → σ → σ × List ρ
  | 0, obj => (obj, [])
  | n + 1, obj =>
    let first := op obj
    let others := call_repeatedly op n first.1
    (others.1, first.2 :: others.2)

/-! ### Raw primitives -/

/-- The four primitive kinds of the overloads of `GetAttrValue` and
`ReadAttrValue`. -/
inductive Kind where
  | string
  | int
  | double
  | size_t
  deriving DecidableEq, Repr

/-- A raw primitive: the argument of a `GetAttrValue` overload, or the content
of the variable an overload of `ReadAttrValue` writes to. -/
inductive Raw where
  | string (s : String)
  | int (v : Int)
  | double (d : CppDouble)
  | size_t (n : Nat)
  deriving DecidableEq, Repr

def Raw.kind : Raw → Kind
  | .string _ => .string
  | .int _ => .int
  | .double _ => .double
  | .size_t _ => .size_t

/-- The physical type an AttrValue object stores. -/
def AttrValue.kind : AttrValue → Kind
  | .Integer _ => .int
  | .Double _ => .double
  | .String _ => .string
  | .Enum _ => .size_t

/-- The raw value an AttrValue object stores, read with its own `Value()`. -/
def AttrValue.raw : AttrValue → Raw
  | .Integer a => .int a.Value
  | .Double a => .double a.Value
  | .String a => .string a.Value
  | .Enum a => .size_t a.Value

/-! ### Failures -/

inductive Failure where
  | type_not_found
  | type_mismatch
  | corrupt_stream
  | configuration
  | exhausted
  | null_value
  deriving DecidableEq, Repr

/-! ### AttrValueCreator (attribute.h, lines 57-76) -/

/-- The virtual methods of `AttrValueCreator`. A `GetAttrValue` overload
returns a nullable `AttrValue*`. A `ReadAttrValue` overload returns `void` and
writes through its pointer argument: here it takes the prior content of the
pointee and returns the content after the call. -/
structure AttrValueCreator where
  GetAttrValue_string : String → Except Failure (Option AttrValue)
  GetAttrValue_int : Int → Except Failure (Option AttrValue)
  GetAttrValue_double : CppDouble → Except Failure (Option AttrValue)
  GetAttrValue_size_t : Nat → Except Failure (Option AttrValue)
  ReadAttrValue_int : AttrValue → Int → Except Failure Int
  ReadAttrValue_double : AttrValue → CppDouble → Except Failure CppDouble
  ReadAttrValue_string : AttrValue → String → Except Failure String
  ReadAttrValue_size_t : AttrValue → Nat → Except Failure Nat

/-- The method bodies written in the base class (lines 60-75): every
`GetAttrValue` overload is `return NULL;`, every `ReadAttrValue` overload has
the empty body. -/
def AttrValueCreator.base : AttrValueCreator where
  GetAttrValue_string := fun _ => .ok none
  GetAttrValue_int := fun _ => .ok none
  GetAttrValue_double := fun _ => .ok none
  GetAttrValue_size_t := fun _ => .ok none
  ReadAttrValue_int := fun _ val => .ok val
  ReadAttrValue_double := fun _ val => .ok val
  ReadAttrValue_string := fun _ str => .ok str
  ReadAttrValue_size_t := fun _ val => .ok val

/-- A call `creator->GetAttrValue(x)` through an `AttrValueCreator*`, the type
the registry hands out: the overload is selected among the four of the base
class by the kind of the argument, which is converted to the parameter type,
and dispatched virtually. -/
def AttrValueCreator.GetAttrValue (c : AttrValueCreator) : Raw → Except Failure (Option AttrValue)
  | .string s => c.GetAttrValue_string s
  | .int v => c.GetAttrValue_int (to_int v)
  | .double d => c.GetAttrValue_double d
  | .size_t n => c.GetAttrValue_size_t (to_size_t n)

/-- A call `creator->ReadAttrValue(attr, &out)` through an
`AttrValueCreator*`: the overload is selected among the four of the base class
by the type of `out` and dispatched virtually; the result is the content of
`out` after the call. -/
def AttrValueCreator.ReadAttrValue (c : AttrValueCreator) (attr : AttrValue) :
    Raw → Except Failure Raw
  | .string s => (c.ReadAttrValue_string attr s).map Raw.string
  | .int v => (c.ReadAttrValue_int attr v).map Raw.int
  | .double d => (c.ReadAttrValue_double attr d).map Raw.double
  | .size_t n => (c.ReadAttrValue_size_t attr n).map Raw.size_t

/-! ### The built-in creators (attribute.h, lines 80-105)

The header declares which overloads each class overrides; the bodies of the
overrides are in a translation unit that is not part of the sources. -/

/-- The bodies of the three text overloads `GetAttrValue(const std::string&)`
of the integer, double and enum creators. Their parsing rules are in the
missing translation unit, so they are parameters. -/
structure TextConstructors where
  integer_from_text : String → Except Failure (Option AttrValue)
  double_from_text : String → Except Failure (Option AttrValue)
  enum_from_text : String → Except Failure (Option AttrValue)

/-- Modelled from the spec: the bodies of `IntegerAttrValueCreator`, missing
from the sources. `GetAttrValue(int)` constructs a new `IntegerAttrValue`;
`ReadAttrValue(attr, int*)` extracts with `Value()` and signals a type mismatch
when `attr` is not an `IntegerAttrValue`. The overloads the class does not
declare are inherited from the base class. -/
def IntegerAttrValueCreator (tc : TextConstructors) : AttrValueCreator :=
  { AttrValueCreator.base with
    GetAttrValue_string := tc.integer_from_text
    GetAttrValue_int := fun val => .ok (some (.Integer (IntegerAttrValue.new val)))
    ReadAttrValue_int := fun attr _ =>
      match attr with
      | .Integer a => .ok a.Value
      | _ => .error .type_mismatch }

/-- Modelled from the spec: the bodies of `DoubleAttrValueCreator`, missing
from the sources. `GetAttrValue(double)` constructs a new `DoubleAttrValue`;
`ReadAttrValue(attr, double*)` extracts with `Value()` and signals a type
mismatch when `attr` is not a `DoubleAttrValue`. -/
def DoubleAttrValueCreator (tc : TextConstructors) : AttrValueCreator :=
  { AttrValueCreator.base with
    GetAttrValue_string := tc.double_from_text
    GetAttrValue_double := fun val => .ok (some (.Double (DoubleAttrValue.new val)))
    ReadAttrValue_double := fun attr _ =>
      match attr with
      | .Double a => .ok a.Value
      | _ => .error .type_mismatch }

/-- Modelled from the spec: the bodies of `StringAttrValueCreator`, missing
from the sources. `GetAttrValue(const std::string&)` constructs a new
`StringAttrValue`; `ReadAttrValue(attr, std::string*)` extracts with `Value()`
and signals a type mismatch when `attr` is not a `StringAttrValue`. -/
def StringAttrValueCreator : AttrValueCreator :=
  { AttrValueCreator.base with
    GetAttrValue_string := fun str => .ok (some (.String (StringAttrValue.new str)))
    ReadAttrValue_string := fun attr _ =>
      match attr with
      | .String a => .ok a.Value
      | _ => .error .type_mismatch }

/-- Modelled from the spec: the bodies of `EnumAttrValueCreator`, missing from
the sources. `GetAttrValue(size_t)` constructs a new `EnumAttrValue`;
`ReadAttrValue(attr, size_t*)` extracts with `Value()` and signals a type
mismatch when `attr` is not an `EnumAttrValue`. -/
def EnumAttrValueCreator (tc : TextConstructors) : AttrValueCreator :=
  { AttrValueCreator.base with
    GetAttrValue_string := tc.enum_from_text
    GetAttrValue_size_t := fun val => .ok (some (.Enum (EnumAttrValue.new val)))
    ReadAttrValue_size_t := fun attr _ =>
      match attr with
      | .Enum a => .ok a.Value
      | _ => .error .type_mismatch }

/-- The four built-in creator classes. -/
inductive Builtin where
  | Integer
  | Double
  | String
  | Enum
  deriving DecidableEq, Repr

def Builtin.creator (tc : TextConstructors) : Builtin → AttrValueCreator
  | .Integer => IntegerAttrValueCreator tc
  | .Double => DoubleAttrValueCreator tc
  | .String => StringAttrValueCreator
  | .Enum => EnumAttrValueCreator tc

/-- The base type a built-in creator is the reference implementation of. -/
def Builtin.base_type : Builtin → Int
  | .Integer => BASE_TYPE_INTEGER
  | .Double => BASE_TYPE_DOUBLE
  | .String => BASE_TYPE_STRING
  | .Enum => BASE_TYPE_ENUM

/-- The primitive kind of a built-in creator's base type. -/
def Builtin.kind : Builtin → Kind
  | .Integer => .int
  | .Double => .double
  | .String => .string
  | .Enum => .size_t

/-- The `GetAttrValue` overloads each built-in class declares
(lines 82-83, 89-90, 96, 102-103). -/
def Builtin.declares_get : Builtin → Kind → Bool
  | .Integer, .string => true
  | .Integer, .int => true
  | .Double, .string => true
  | .Double, .double => true
  | .String, .string => true
  | .Enum, .size_t => true
  | .Enum, .string => true
  | _, _ => false

/-- The `ReadAttrValue` overloads each built-in class declares
(lines 84, 91, 97, 104). -/
def Builtin.declares_read : Builtin → Kind → Bool
  | .Integer, .int => true
  | .Double, .double => true
  | .String, .string => true
  | .Enum, .size_t => true
  | _, _ => false

/-- A raw value is valid for its kind when it is a value of the C++ type. -/
def Raw.valid : Raw → Prop
  | .string _ => True
  | .int v => is_int v
  | .double _ => True
  | .size_t n => is_size_t n

instance (v : Raw) : Decidable v.valid := by
  cases v <;> unfold Raw.valid <;> infer_instance

/-- The built-in creator class that constructs objects of the class of `a`. -/
def AttrValue.builtin : AttrValue → Builtin
  | .Integer _ => .Integer
  | .Double _ => .Double
  | .String _ => .String
  | .Enum _ => .Enum

/-- Text constructors that reject every text; used where a concrete instance
is needed. -/
def TextConstructors.rejecting : TextConstructors where
  integer_from_text := fun _ => .error .type_mismatch
  double_from_text := fun _ => .error .type_mismatch
  enum_from_text := fun _ => .error .type_mismatch

/-! ### Type registry (attribute.h, lines 107-118)

The header declares the three registry functions; their bodies and the
registry variable are in a translation unit that is not part of the sources. -/

/-- One binding of the registry: a logical attribute type, its creator and
its base type. -/
structure RegistryEntry where
  attr_type : Int
  creator : AttrValueCreator
  base_type : Int

/-- Modelled from the spec: the process-wide registry state, missing from the
sources. It maps an `attr_type` to a creator and a base type; the bindings are
kept newest first. -/
abbrev Registry := List RegistryEntry

/-- The registry at process start, before any registration. -/
def Registry.empty : Registry := []

/-- Modelled from the spec: the body of `RegisterAttrValueCreator`, missing
from the sources. It binds `attr_type` to the creator and the base type. The
policy for an `attr_type` that is already registered is to overwrite: the new
binding is the one every later lookup finds. -/
def RegisterAttrValueCreator (reg : Registry) (attr_type : Int) (creator : AttrValueCreator)
    (base_type : Int) : Registry :=
  { attr_type := attr_type, creator := creator, base_type := base_type } :: reg

/-- The binding a lookup of `attr_type` finds. -/
def Registry.lookup (reg : Registry) (attr_type : Int) : Option RegistryEntry :=
  reg.find? (fun e => decide (e.attr_type = attr_type))

/-- Modelled from the spec: the body of `GetAttrValueCreator`, missing from
the sources. It returns the registered creator and fails with a type-not-found
condition when `attr_type` is absent. -/
def GetAttrValueCreator (reg : Registry) (attr_type : Int) : Except Failure AttrValueCreator :=
  match reg.lookup attr_type with
  | some e => .ok e.creator
  | none => .error .type_not_found

/-- Modelled from the spec: the body of `GetBaseType`, missing from the
sources. It returns the registered base type, with the failure contract of
`GetAttrValueCreator`. -/
def GetBaseType (reg : Registry) (attr_type : Int) : Except Failure Int :=
  match reg.lookup attr_type with
  | some e => .ok e.base_type
  | none => .error .type_not_found

/-- The registry after a sequence of calls of `RegisterAttrValueCreator`, made
in list order on the registry `reg`. -/
def register_all (reg : Registry) (calls : List RegistryEntry) : Registry :=
  calls.foldl (fun r e => RegisterAttrValueCreator r e.attr_type e.creator e.base_type) reg

/-- The registration of the four built-in creators under the attribute types
0 to 3, each with its base type; a concrete population of the registry. -/
def builtin_registrations : List RegistryEntry :=
  [ { attr_type := 0, creator := IntegerAttrValueCreator TextConstructors.rejecting,
      base_type := BASE_TYPE_INTEGER },
    { attr_type := 1, creator := DoubleAttrValueCreator TextConstructors.rejecting,
      base_type := BASE_TYPE_DOUBLE },
    { attr_type := 2, creator := StringAttrValueCreator, base_type := BASE_TYPE_STRING },
    { attr_type := 3, creator := EnumAttrValueCreator TextConstructors.rejecting,
      base_type := BASE_TYPE_ENUM } ]

/-! ### Schema, tuple, bit stream and model (base.h, data_io.h, model.h)

These headers are not part of the sources. -/

/-- Modelled from the spec: `Schema`, missing from the sources: the ordered
sequence of attribute-type identifiers, one per column. -/
abbrev Schema := List Int

/-- Modelled from the spec: `Tuple`, missing from the sources: the ordered
sequence of AttrValue slots, one per column. A slot is empty or owns one
object. -/
abbrev Tuple := List (Option AttrValue)

/-- Modelled from the spec: `ByteReader`, missing from the sources: a
sequential, forward-only supply of bits. The state is the bits not yet
consumed. -/
structure ByteReader where
  bits : List Bool
  deriving DecidableEq, Repr

/-- Modelled from the spec: `Model`, missing from the sources: the decoder of
one column. Given the bit stream and the tuple under construction it returns
the value of its column and the advanced stream, or fails on a corrupt
stream. -/
abbrev Model := ByteReader → Tuple → Except Failure (AttrValue × ByteReader)

/-! ### Decompressor (decompression.h, lines 15-27)

The header declares the fields and the member functions; the bodies are in a
translation unit that is not part of the sources. -/

/-- The fields of `Decompressor` (lines 17-21). -/
structure Decompressor where
  byte_reader_ : ByteReader
  implicit_length_ : Nat
  schema_ : Schema
  model_ : List Model
  attr_order_ : List Nat

/-- Modelled from the spec: the constructor
`Decompressor(const char* compressedFileName, const Schema& schema)`, whose
body is missing from the sources. It opens the bit stream over the compressed
data and keeps the schema; the other members are filled by `Init`. -/
def Decompressor.new (data : List Bool) (schema : Schema) : Decompressor where
  byte_reader_ := { bits := data }
  implicit_length_ := 0
  schema_ := schema
  model_ := []
  attr_order_ := []

/-- The free store: cell `a` holds the object at address `a`, or nothing once
that object is destroyed. -/
structure Heap where
  cells : List (Option AttrValue)
  deriving DecidableEq, Repr

/-- The object at an address, if a live object is there. -/
def Heap.read (h : Heap) (a : Nat) : Option AttrValue := (h.cells[a]?).getD none

/-- The expression `new T(..)`: the object is placed at an address that held
no object before. Returns the address and the new store. -/
def Heap.alloc (h : Heap) (v : AttrValue) : Nat × Heap :=
  (h.cells.length, { cells := h.cells ++ [some v] })

/-- The value a slot holds in a store. -/
def Heap.load (h : Heap) (slot : Option Nat) : Option AttrValue := slot.bind h.read

/-- A nullable `AttrValue*` returned by a creator, seen from the store: the
null pointer, or the address of the newly constructed object. -/
def Heap.store (h : Heap) : Option AttrValue → Option Nat × Heap
  | none => (none, h)
  | some v => (some (h.alloc v).1, (h.alloc v).2)

theorem to_int_of_is_int (v : Int) (h : is_int v) : to_int v = v := by
  unfold is_int at h
  unfold to_int
  simp only [INT_BITS] at h ⊢
  norm_num at h ⊢
  omega

theorem to_size_t_of_is_size_t (v : Nat) (h : is_size_t v) : to_size_t v = v := by
  unfold is_size_t at h
  unfold to_size_t
  exact Nat.mod_eq_of_lt h

theorem call_repeatedly_const {σ ρ : Type} (m : σ → ρ) (n : Nat) (obj : σ) :
    call_repeatedly (const_call m) n obj = (obj, List.replicate n (m obj)) := by
  induction n with
  | zero => rfl
  | succ k ih => simp [call_repeatedly, const_call, ih, List.replicate_succ]

theorem get_inherited (tc : TextConstructors) (b : Builtin) (v : Raw)
    (h : b.declares_get v.kind = false) :
    (b.creator tc).GetAttrValue v = .ok none := by
  cases b <;> cases v <;> first | rfl | simp [Builtin.declares_get, Raw.kind] at h

theorem read_inherited (tc : TextConstructors) (b : Builtin) (attr : AttrValue) (out : Raw)
    (h : b.declares_read out.kind = false) :
    (b.creator tc).ReadAttrValue attr out = .ok out := by
  cases b <;> cases out <;> first | rfl | simp [Builtin.declares_read, Raw.kind] at h

/-! ### Value representation and creators -/

/-- C1: for each built-in creator and every valid raw value `v` of the kind of
its base type, `GetAttrValue(v)` returns a non-null object `a`, the object's
own `Value()` is `v`, and `ReadAttrValue(a, &out)` leaves `v` in `out`
whatever `out` held before. -/
theorem registry_round_trip (tc : TextConstructors) (b : Builtin) (v : Raw)
    (hk : v.kind = b.kind) (hv : v.valid) :
    ∃ a : AttrValue, (b.creator tc).GetAttrValue v = .ok (some a) ∧ a.raw = v ∧
      ∀ out : Raw, out.kind = b.kind → (b.creator tc).ReadAttrValue a out = .ok v := by
  cases b <;> cases v <;> simp [Raw.kind, Builtin.kind] at hk
  · rename_i v
    have hv2 : to_int v = v := to_int_of_is_int v hv
    refine ⟨.Integer (IntegerAttrValue.new v), ?_, ?_, ?_⟩
    · simp [AttrValueCreator.GetAttrValue, Builtin.creator, IntegerAttrValueCreator, hv2]
    · simp [AttrValue.raw, IntegerAttrValue.Value, IntegerAttrValue.new, hv2]
    · intro out hout
      cases out <;> simp [Raw.kind, Builtin.kind] at hout
      simp [AttrValueCreator.ReadAttrValue, Builtin.creator, IntegerAttrValueCreator,
        IntegerAttrValue.Value, IntegerAttrValue.new, hv2, Except.map]
  · rename_i d
    refine ⟨.Double (DoubleAttrValue.new d), rfl, rfl, ?_⟩
    intro out hout
    cases out <;> simp [Raw.kind, Builtin.kind] at hout
    rfl
  · rename_i s
    refine ⟨.String (StringAttrValue.new s), rfl, rfl, ?_⟩
    intro out hout
    cases out <;> simp [Raw.kind, Builtin.kind] at hout
    rfl
  · rename_i n
    have hv2 : to_size_t n = n := to_size_t_of_is_size_t n hv
    refine ⟨.Enum (EnumAttrValue.new n), ?_, ?_, ?_⟩
    · simp [AttrValueCreator.GetAttrValue, Builtin.creator, EnumAttrValueCreator, hv2]
    · simp [AttrValue.raw, EnumAttrValue.Value, EnumAttrValue.new, hv2]
    · intro out hout
      cases out <;> simp [Raw.kind, Builtin.kind] at hout
      simp [AttrValueCreator.ReadAttrValue, Builtin.creator, EnumAttrValueCreator,
        EnumAttrValue.Value, EnumAttrValue.new, hv2, Except.map]

theorem registry_round_trip_witness :
    ∃ a : AttrValue,
      (Builtin.Integer.creator TextConstructors.rejecting).GetAttrValue (.int (-7)) = .ok (some a) ∧
      a.raw = .int (-7) ∧
      ∀ out : Raw, out.kind = Builtin.Integer.kind →
        (Builtin.Integer.creator TextConstructors.rejecting).ReadAttrValue a out = .ok (.int (-7)) :=
  registry_round_trip TextConstructors.rejecting .Integer (.int (-7)) rfl (by decide)

/-- C5 (as stated, refuted): asked for an `AttrValue` from an `int`, a kind
`StringAttrValueCreator` does not declare, `GetAttrValue` raises nothing and
returns the null pointer. -/
theorem unsupported_construction_returns_null :
    Builtin.String.declares_get (Raw.int 5).kind = false ∧
    StringAttrValueCreator.GetAttrValue (.int 5) = .ok none :=
  ⟨rfl, rfl⟩

/-- C5 (amended): for every built-in creator and every primitive kind whose
`GetAttrValue` overload the class does not declare, the call runs the base
class body: it raises nothing and returns the null pointer. -/
theorem unsupported_construction (tc : TextConstructors) (b : Builtin) (v : Raw)
    (h : b.declares_get v.kind = false) :
    (b.creator tc).GetAttrValue v = .ok none ∧
    (b.creator tc).GetAttrValue v = AttrValueCreator.base.GetAttrValue v := by
  have h1 := get_inherited tc b v h
  refine ⟨h1, ?_⟩
  rw [h1]
  cases v <;> rfl

theorem unsupported_construction_witness :
    (Builtin.Integer.creator TextConstructors.rejecting).GetAttrValue (.double ⟨0⟩) = .ok none ∧
    (Builtin.Integer.creator TextConstructors.rejecting).GetAttrValue (.double ⟨0⟩) =
      AttrValueCreator.base.GetAttrValue (.double ⟨0⟩) :=
  unsupported_construction TextConstructors.rejecting .Integer (.double ⟨0⟩) rfl

/-- C6 (as stated, refuted): `DoubleAttrValueCreator` does not declare the
`int` overload of `ReadAttrValue`; called with `out` holding 0 it raises
nothing and leaves 0 in `out`, which is also the whole effect of the successful
extraction of 0 by `IntegerAttrValueCreator`. -/
theorem unsupported_extraction_not_signalled :
    Builtin.Double.declares_read (Raw.int 0).kind = false ∧
    (DoubleAttrValueCreator TextConstructors.rejecting).ReadAttrValue
      (.Double (DoubleAttrValue.new ⟨1⟩)) (.int 0) = .ok (.int 0) ∧
    (IntegerAttrValueCreator TextConstructors.rejecting).ReadAttrValue
      (.Integer (IntegerAttrValue.new 0)) (.int 0) = .ok (.int 0) :=
  ⟨rfl, rfl, rfl⟩

/-- C6 (amended): for every built-in creator and every primitive kind whose
`ReadAttrValue` overload the class does not declare, the call runs the empty
base class body: it raises nothing and `out` keeps its prior content, for every
object and every prior content. -/
theorem unsupported_extraction (tc : TextConstructors) (b : Builtin) (attr : AttrValue)
    (out : Raw) (h : b.declares_read out.kind = false) :
    (b.creator tc).ReadAttrValue attr out = .ok out ∧
    (b.creator tc).ReadAttrValue attr out = AttrValueCreator.base.ReadAttrValue attr out := by
  have h1 := read_inherited tc b attr out h
  refine ⟨h1, ?_⟩
  rw [h1]
  cases out <;> rfl

theorem unsupported_extraction_witness :
    (Builtin.Enum.creator TextConstructors.rejecting).ReadAttrValue
      (.Enum (EnumAttrValue.new 4)) (.string "prior") = .ok (.string "prior") ∧
    (Builtin.Enum.creator TextConstructors.rejecting).ReadAttrValue
      (.Enum (EnumAttrValue.new 4)) (.string "prior") =
      AttrValueCreator.base.ReadAttrValue (.Enum (EnumAttrValue.new 4)) (.string "prior") :=
  unsupported_extraction TextConstructors.rejecting .Enum (.Enum (EnumAttrValue.new 4))
    (.string "prior") rfl

/-- C7 (as stated, refuted): reading an `int` out of a `StringAttrValue`
through `StringAttrValueCreator` yields no type-mismatch error: the call
returns normally and `out` still holds its prior content 0. -/
theorem int_out_of_string_not_checked :
    (AttrValue.String (StringAttrValue.new "abc")).kind ≠ (Raw.int 0).kind ∧
    StringAttrValueCreator.ReadAttrValue (.String (StringAttrValue.new "abc")) (.int 0)
      = .ok (.int 0) :=
  ⟨by decide, rfl⟩

/-- C7 (amended): for every AttrValue object and every physical type other
than the one it stores, `ReadAttrValue` of that type through the built-in
creator of the object's own class raises no error and leaves `out` with its
prior content. -/
theorem mismatched_read_unchecked (tc : TextConstructors) (a : AttrValue) (out : Raw)
    (h : out.kind ≠ a.kind) :
    (a.builtin.creator tc).ReadAttrValue a out = .ok out := by
  apply read_inherited
  cases a <;> cases out <;> first | rfl | simp [Raw.kind, AttrValue.kind] at h

theorem mismatched_read_unchecked_witness :
    ((AttrValue.Double (DoubleAttrValue.new ⟨3⟩)).builtin.creator
      TextConstructors.rejecting).ReadAttrValue
      (.Double (DoubleAttrValue.new ⟨3⟩)) (.size_t 9) = .ok (.size_t 9) :=
  mismatched_read_unchecked TextConstructors.rejecting (.Double (DoubleAttrValue.new ⟨3⟩))
    (.size_t 9) (by decide)

/-- C9 (as stated, refuted): `2 ^ 31` lies in the signed 64-bit range, and an
`IntegerAttrValue` constructed from it returns `-2 ^ 31` from `Value()`, not
`2 ^ 31`. -/
theorem integer_range_not_64_bit :
    (-(2 ^ 63) ≤ (2 ^ 31 : Int) ∧ (2 ^ 31 : Int) < 2 ^ 63) ∧
    (IntegerAttrValue.new (2 ^ 31)).Value = -(2 ^ 31) ∧
    (IntegerAttrValue.new (2 ^ 31)).Value ≠ 2 ^ 31 := by
  decide

/-- C9 (amended): the Integer variant holds any value of the range of `int`:
for every `v` with `-2 ^ 31 ≤ v < 2 ^ 31`, an `IntegerAttrValue` constructed
from `v` returns exactly `v` from `Value()`. -/
theorem integer_range_int (v : Int) (h : is_int v) :
    (IntegerAttrValue.new v).Value = v :=
  to_int_of_is_int v h

theorem integer_range_int_witness :
    (IntegerAttrValue.new (2 ^ 31 - 1)).Value = 2 ^ 31 - 1 :=
  integer_range_int (2 ^ 31 - 1) (by decide)

/-- C10: for each of the four classes, any number `n` of successive calls of
`Value()`, the only operation besides the constructor, leaves the object as
constructed and returns the constructor argument each time. -/
theorem attr_value_immutable (n : Nat) :
    (∀ v : Int, is_int v →
      call_repeatedly (const_call IntegerAttrValue.Value) n (IntegerAttrValue.new v)
        = (IntegerAttrValue.new v, List.replicate n v)) ∧
    (∀ d : CppDouble,
      call_repeatedly (const_call DoubleAttrValue.Value) n (DoubleAttrValue.new d)
        = (DoubleAttrValue.new d, List.replicate n d)) ∧
    (∀ s : String,
      call_repeatedly (const_call StringAttrValue.Value) n (StringAttrValue.new s)
        = (StringAttrValue.new s, List.replicate n s)) ∧
    (∀ v : Nat, is_size_t v →
      call_repeatedly (const_call EnumAttrValue.Value) n (EnumAttrValue.new v)
        = (EnumAttrValue.new v, List.replicate n v)) := by
  refine ⟨?_, ?_, ?_, ?_⟩
  · intro v hv
    rw [call_repeatedly_const]
    simp [IntegerAttrValue.Value, IntegerAttrValue.new, to_int_of_is_int v hv]
  · intro d
    rw [call_repeatedly_const]
    rfl
  · intro s
    rw [call_repeatedly_const]
    rfl
  · intro v hv
    rw [call_repeatedly_const]
    simp [EnumAttrValue.Value, EnumAttrValue.new, to_size_t_of_is_size_t v hv]

theorem attr_value_immutable_witness :
    call_repeatedly (const_call IntegerAttrValue.Value) 3 (IntegerAttrValue.new (-5))
        = (IntegerAttrValue.new (-5), [-5, -5, -5]) ∧
    call_repeatedly (const_call EnumAttrValue.Value) 3 (EnumAttrValue.new 2)
        = (EnumAttrValue.new 2, [2, 2, 2]) :=
  ⟨(attr_value_immutable 3).1 (-5) (by decide), (attr_value_immutable 3).2.2.2 2 (by decide)⟩

/-! ### Type registry -/

theorem lookup_register_all (calls : List RegistryEntry) (reg : Registry) (t : Int)
    (h : ∀ e ∈ calls, e.attr_type ≠ t) :
    (register_all reg calls).lookup t = reg.lookup t := by
  induction calls generalizing reg with
  | nil => rfl
  | cons e cs ih =>
    have he : e.attr_type ≠ t := h e (List.mem_cons_self _ _)
    have hcs : ∀ x ∈ cs, x.attr_type ≠ t := fun x hx => h x (List.mem_cons_of_mem _ hx)
    show (register_all (RegisterAttrValueCreator reg e.attr_type e.creator e.base_type) cs).lookup t
      = reg.lookup t
    rw [ih _ hcs]
    simp [Registry.lookup, RegisterAttrValueCreator, List.find?_cons, he]

/-- C4: after any sequence of registrations made on the empty registry, for
every `attr_type` that none of them registered, `GetAttrValueCreator` and
`GetBaseType` both fail with the type-not-found condition; neither returns a
creator or a base type. -/
theorem unknown_type_lookup (calls : List RegistryEntry) (attr_type : Int)
    (h : ∀ e ∈ calls, e.attr_type ≠ attr_type) :
    GetAttrValueCreator (register_all Registry.empty calls) attr_type = .error .type_not_found ∧
    GetBaseType (register_all Registry.empty calls) attr_type = .error .type_not_found := by
  have hl := lookup_register_all calls Registry.empty attr_type h
  have h0 : Registry.lookup Registry.empty attr_type = none := rfl
  rw [h0] at hl
  constructor
  · simp [GetAttrValueCreator, hl]
  · simp [GetBaseType, hl]

theorem unknown_type_lookup_witness :
    GetAttrValueCreator (register_all Registry.empty builtin_registrations) 7
      = .error .type_not_found ∧
    GetBaseType (register_all Registry.empty builtin_registrations) 7
      = .error .type_not_found :=
  unknown_type_lookup builtin_registrations 7 (by decide)

/-! ### Decode engine: the column loop -/

theorem read_alloc_new (h : Heap) (v : AttrValue) :
    (h.alloc v).2.read (h.alloc v).1 = some v := by
  simp [Heap.read, Heap.alloc]

theorem load_store (h : Heap) (v : Option AttrValue) :
    (h.store v).2.load (h.store v).1 = v := by
  cases v with
  | none => rfl
  | some x => exact read_alloc_new h x

end db_compress
